import Mathlib

/-!
Shallow embedding of the news MCP server (src/server.py) and proofs about it.
The pure data transformations of the server are translated to executable Lean
definitions; the external collaborators (HTTP search API, LLM client, clock)
are passed in as explicit oracle parameters.
-/

namespace NewsServer

/-! ### Text cleaning (`_clean_html_tags`) -/

/-- Worker for `stripTags`, structurally recursive on a fuel argument so that
the kernel can evaluate it; one unit of fuel is spent per consumed character,
so fuel equal to the list length never runs out. Each step mirrors
`re.sub(r'<[^>]+>', '', text)`: at a `<` followed by at least one character
that is not `>` and then a `>`, the whole span through that first `>` is
removed; otherwise the character is kept and scanning resumes one position
later. -/
def stripGo : Nat → List Char → List Char
  | _, [] => []
  | 0, l => l
  | fuel + 1, c :: rest =>
    if c = '<' then
      match rest.findIdx? (fun d => d == '>') with
      | some n => if 0 < n then stripGo fuel (rest.drop (n + 1)) else c :: stripGo fuel rest
      | none => c :: stripGo fuel rest
    else c :: stripGo fuel rest

/-- The HTML-tag stripping pass of `_clean_html_tags`. -/
def stripTags (l : List Char) : List Char := stripGo l.length l

/-- Worker for `replaceAll`, structurally recursive on fuel (one unit per
consumed character). Mirrors Python `str.replace`: scan left to right,
replacing each non-overlapping occurrence of the nonempty pattern `p :: ps`
with `rep` and resuming after the matched span. -/
def repGo (p : Char) (ps rep : List Char) : Nat → List Char → List Char
  | _, [] => []
  | 0, l => l
  | fuel + 1, c :: rest =>
    if (p :: ps).isPrefixOf (c :: rest) then rep ++ repGo p ps rep fuel (rest.drop ps.length)
    else c :: repGo p ps rep fuel rest

/-- `s.replace(pat, rep)` on strings; a degenerate empty pattern leaves the
string unchanged (all call sites use nonempty literal patterns). -/
def replaceAll (s pat rep : String) : String :=
  match pat.toList with
  | [] => s
  | p :: ps => String.mk (repGo p ps rep.toList s.toList.length s.toList)

/-- The apostrophe character, used as the replacement text for the
`&apos;` entity. -/
def aposStr : String := String.mk [Char.ofNat 39]

/-- `_clean_html_tags`: strip `<...>` tag spans, then decode the five HTML
entities in the fixed order of the source, each substitution applied once. -/
def clean_html_tags (text : String) : String :=
  let cleanText := String.mk (stripTags text.toList)
  let cleanText := replaceAll cleanText "&quot;" "\""
  let cleanText := replaceAll cleanText "&amp;" "&"
  let cleanText := replaceAll cleanText "&lt;" "<"
  let cleanText := replaceAll cleanText "&gt;" ">"
  let cleanText := replaceAll cleanText "&apos;" aposStr
  cleanText

/-- The entity-decoding phase of `_clean_html_tags` on its own: the five
substitutions of the source in their fixed order. -/
def htmlEntityDecode (s : String) : String :=
  replaceAll (replaceAll (replaceAll (replaceAll
    (replaceAll s "&quot;" "\"") "&amp;" "&") "&lt;" "<") "&gt;" ">") "&apos;" aposStr

/-! ### Data model -/

/-- Python truthiness of an optional string: `not x` holds for `None` and
for the empty string. -/
def isFalsy : Option String → Bool
  | none => true
  | some s => s == ""

/-- The three credentials read from the process environment at startup
(`news_client_id`, `news_client_secret`, `claude_api_key`). The Claude
client object exists exactly when `claude_api_key` is truthy. -/
structure Config where
  client_id : Option String
  client_secret : Option String
  claude_api_key : Option String
  deriving DecidableEq

/-- One JSON item of the upstream search response; `none` represents an
absent key, read through `item.get(key, default)` at each use site. -/
structure RawItem where
  title : Option String := none
  description : Option String := none
  originallink : Option String := none
  link : Option String := none
  pubDate : Option String := none
  deriving DecidableEq

/-- The JSON body of a successful search response. -/
structure SearchData where
  total : Option Int := none
  start : Option Int := none
  display : Option Int := none
  items : Option (List RawItem) := none
  deriving DecidableEq

/-- Outcome of one outbound GET to the news API, as observed by the code:
a 200 response with a JSON body, a non-200 status with a body text, or an
`aiohttp.ClientError`. -/
inductive FetchResult where
  | httpOk (data : SearchData)
  | httpErr (status : Int) (body : String)
  | netErr (msg : String)
  deriving DecidableEq

/-- The query parameters of one outbound GET to the news API. -/
structure ReqParams where
  query : String
  display : Int
  start : Int
  sort : String
  deriving DecidableEq

/-- `mcp.types.TextContent`; every construction in the source uses
`type="text"`. -/
structure TextContent where
  type : String
  text : String
  deriving DecidableEq

/-- Shorthand for `TextContent(type="text", text=...)`. -/
def textContent (s : String) : TextContent := { type := "text", text := s }

/-- Result of running `_search_news`: the returned content list together
with the trace of outbound GET requests it issued. -/
structure SearchRun where
  response : List TextContent
  calls : List ReqParams
  deriving DecidableEq

/-- The error text returned when the Naver credentials are not configured
(the two adjacent Python string literals concatenate). -/
def naverCredMissingText : String :=
  "오류: 네이버 API 자격 증명이 설정되지 않았습니다. 환경 변수 news_client_id와 news_client_secret을 설정해주세요."

/-- The error text returned when the Claude API key is not configured. -/
def claudeCredMissingText : String :=
  "오류: Claude API 키가 설정되지 않았습니다. 환경 변수 claude_api_key를 설정해주세요."

/-! ### Number formatting helpers used by `_format_news_results` -/

/-- Zero-pad the decimal representation of `n` (assumed < 1000) to width 3. -/
def pad3 (n : Nat) : String :=
  let s := toString n
  String.mk (List.replicate (3 - s.length) '0') ++ s

/-- Worker for the thousands separator of `f-string` `:,` formatting,
structurally recursive on fuel (the value itself bounds the recursion depth
amply). -/
def commaGo : Nat → Nat → String
  | 0, n => toString n
  | fuel + 1, n => if n < 1000 then toString n else commaGo fuel (n / 1000) ++ "," ++ pad3 (n % 1000)

/-- Python `f"{i:,}"` for an integer: decimal digits grouped in threes by
commas, with a leading minus sign for negative values. -/
def formatThousands (i : Int) : String :=
  if i < 0 then "-" ++ commaGo (-i).toNat (-i).toNat else commaGo i.toNat i.toNat

/-! ### `_search_news` and `_format_news_results` -/

/-- The `display` parameter validation of `_search_news`:
`display = max(1, min(display, 100))`. -/
def clampDisplay (display : Int) : Int := max 1 (min display 100)

/-- The `start` parameter validation of `_search_news`:
`start = max(1, min(start, 1000))`. -/
def clampStart (start : Int) : Int := max 1 (min start 1000)

/-- The `sort` parameter validation of `_search_news`: anything other than
`"sim"` (relevance) or `"date"` falls back to `"sim"`. -/
def validateSort (sort : String) : String :=
  if sort = "sim" ∨ sort = "date" then sort else "sim"

/-- `_format_news_results`: renders a successful search response. Fields are
read with the same defaults as the source; items are numbered starting at
the `start` field of the response. -/
def format_news_results (data : SearchData) (query : String) : List TextContent :=
  let total := data.total.getD 0
  let start := data.start.getD 1
  let items := data.items.getD []
  if items = [] then
    [textContent ("'" ++ query ++ "'에 대한 검색 결과가 없습니다.")]
  else
    let header := [
      "## 📰 '" ++ query ++ "' 뉴스 검색 결과",
      "총 " ++ formatThousands total ++ "개의 결과 중 " ++ toString start ++ "~" ++
        toString (start + (items.length : Int) - 1) ++ "번째 결과",
      ""]
    let body := items.enum.flatMap (fun p =>
      let i := start + (p.1 : Int)
      let item := p.2
      let title := clean_html_tags (item.title.getD "제목 없음")
      let description := clean_html_tags (item.description.getD "내용 없음")
      let original_link := item.originallink.getD ""
      let naver_link := item.link.getD ""
      let pub_date := item.pubDate.getD "알 수 없음"
      ["### " ++ toString i ++ ". " ++ title,
       "**발행일:** " ++ pub_date,
       "**요약:** " ++ description]
      ++ (if original_link ≠ "" then ["**원문 링크:** " ++ original_link] else [])
      ++ (if naver_link ≠ "" ∧ naver_link ≠ original_link then ["**네이버 뉴스:** " ++ naver_link] else [])
      ++ [""])
    [textContent (String.intercalate "\n" (header ++ body))]

/-- `_search_news`: checks credentials, clamps the parameters, then issues a
single GET whose outcome is given by the `fetch` oracle. The trace of issued
requests is recorded in `calls`. -/
def search_news (cfg : Config) (query : String) (display : Int) (start : Int) (sort : String)
    (fetch : ReqParams → FetchResult) : SearchRun :=
  if isFalsy cfg.client_id ∨ isFalsy cfg.client_secret then
    { response := [textContent naverCredMissingText], calls := [] }
  else
    let display := clampDisplay display
    let start := clampStart start
    let sort := validateSort sort
    let params : ReqParams := { query := query, display := display, start := start, sort := sort }
    match fetch params with
    | .httpOk data =>
        { response := format_news_results data query, calls := [params] }
    | .httpErr status body =>
        { response := [textContent ("API 오류 (상태 코드: " ++ toString status ++ "): " ++ body)],
          calls := [params] }
    | .netErr msg =>
        { response := [textContent ("네트워크 오류: " ++ msg)], calls := [params] }

/-! ### Category registry and `_get_category_news` -/

/-- One entry of `NEWS_CATEGORIES`. -/
structure Category where
  name : String
  keywords : List String
  description : String
  deriving DecidableEq

/-- The static category registry of the server, in source order. -/
def NEWS_CATEGORIES : List (String × Category) := [
  ("politics", { name := "정치", keywords := ["정치", "국회", "대통령", "정당", "선거"],
                 description := "정치, 국회, 정당 관련 뉴스" }),
  ("economy", { name := "경제", keywords := ["경제", "주식", "부동산", "금융", "기업"],
                description := "경제, 금융, 증시, 부동산 관련 뉴스" }),
  ("society", { name := "사회", keywords := ["사회", "사건", "사고", "교육", "환경"],
                description := "사회, 교육, 환경, 사건사고 관련 뉴스" }),
  ("culture", { name := "생활/문화", keywords := ["문화", "여행", "음식", "건강", "패션"],
                description := "생활, 문화, 여행, 건강 관련 뉴스" }),
  ("tech", { name := "IT/과학", keywords := ["IT", "과학", "기술", "AI", "스마트폰"],
             description := "IT, 과학, 기술, 인공지능 관련 뉴스" }),
  ("world", { name := "세계", keywords := ["국제", "세계", "미국", "중국", "일본"],
              description := "국제, 세계 각국 관련 뉴스" }),
  ("sports", { name := "스포츠", keywords := ["스포츠", "축구", "야구", "농구", "올림픽"],
               description := "스포츠, 프로야구, 축구, 올림픽 관련 뉴스" }),
  ("entertainment", { name := "연예", keywords := ["연예", "드라마", "영화", "K-POP", "아이돌"],
                      description := "연예, 드라마, 영화, K-POP 관련 뉴스" })]

/-- The unknown-category error text of `_get_category_news`. -/
def unknownCategoryText (category : String) : String :=
  "오류: 알 수 없는 카테고리 '" ++ category ++ "'. 사용 가능한 카테고리: " ++
    String.intercalate ", " (NEWS_CATEGORIES.map (fun c => c.1))

/-- `_get_category_news`: resolve the category id in the registry; if absent
return the unknown-category error, otherwise search with the first seed
keyword of the category. Default arguments follow the source
(`display=10`, `sort="date"`). -/
def get_category_news (cfg : Config) (fetch : ReqParams → FetchResult) (category : String)
    (display : Int := 10) (sort : String := "date") : SearchRun :=
  match NEWS_CATEGORIES.lookup category with
  | none => { response := [textContent (unknownCategoryText category)], calls := [] }
  | some cat_info => search_news cfg (cat_info.keywords.headD "") display 1 sort fetch

/-! ### Tool dispatcher (`handle_call_tool`) -/

/-- Outcome of a Python call: a returned value or a raised exception carrying
its message. -/
inductive PyResult (α : Type) where
  | ok (val : α)
  | exn (msg : String)
  deriving DecidableEq

/-- The fixed set of tool names the dispatcher recognises. -/
def knownTools : List String :=
  ["search_news", "get_category_news", "list_categories", "generate_news_report",
   "search_and_summarize_news"]

/-- `handle_call_tool`: the dispatcher routes a known tool name to its handler
(whose outcome, return or raise, is given by the oracle `run`) and raises
`ValueError("Unknown tool: ...")` for an unknown name; every exception is
caught at this boundary and converted to a single text item prefixed
`"Error: "`. -/
def handle_call_tool (run : String → PyResult (List TextContent)) (name : String) :
    List TextContent :=
  match (if name ∈ knownTools then run name else PyResult.exn ("Unknown tool: " ++ name)) with
  | .ok r => r
  | .exn e => [textContent ("Error: " ++ e)]

/-! ### Report aggregation (`_generate_news_report`) -/

/-- One collected article dict of `_generate_news_report`. -/
structure Article where
  title : String
  description : String
  originallink : String
  link : String
  pubDate : String
  search_query : String
  deriving DecidableEq

/-- The article dict appended for item `item` found under query `q`:
title and description cleaned, links and date defaulted to `""`. -/
def mkArticle (q : String) (item : RawItem) : Article :=
  { title := clean_html_tags (item.title.getD ""),
    description := clean_html_tags (item.description.getD ""),
    originallink := item.originallink.getD "",
    link := item.link.getD "",
    pubDate := item.pubDate.getD "",
    search_query := q }

/-- The body of the inner collection loop: clean the title and, when it is
nonempty and not seen before, record it and append the article; otherwise the
state is unchanged. The state is the pair
(`all_articles`, `seen_titles`). -/
def dedupInsert (q : String) (st : List Article × List String) (item : RawItem) :
    List Article × List String :=
  let title := clean_html_tags (item.title.getD "")
  if title ≠ "" ∧ title ∉ st.2 then
    (st.1 ++ [mkArticle q item], st.2 ++ [title])
  else st

/-- The items the collection loop sees for one query: the `items` field of a
200 response, nothing for a non-200 status or a network error (both are
skipped without aborting the aggregation). -/
def itemsOf (fetch : ReqParams → FetchResult) (display : Int) (q : String) : List RawItem :=
  match fetch { query := q, display := display, start := 1, sort := "date" } with
  | .httpOk data => data.items.getD []
  | .httpErr _ _ => []
  | .netErr _ => []

/-- The two nested loops of `_generate_news_report` over queries and items,
as a fold with initial state `([], set())`. -/
def reportAccum (fetch : ReqParams → FetchResult) (queries : List String) (display : Int) :
    List Article × List String :=
  queries.foldl (fun st q => (itemsOf fetch display q).foldl (dedupInsert q) st) ([], [])

/-- The flattened query/item stream the collection loops traverse, in
traversal order. -/
def streamOf (fetch : ReqParams → FetchResult) (display : Int) (queries : List String) :
    List (String × RawItem) :=
  queries.flatMap (fun q => (itemsOf fetch display q).map (fun item => (q, item)))

/-- The same fold as `reportAccum`, over the flattened stream and from an
arbitrary starting state; used to reason about the loops by induction. -/
def foldStream (l : List (String × RawItem)) (st : List Article × List String) :
    List Article × List String :=
  l.foldl (fun st p => dedupInsert p.1 st p.2) st

/-- `num_articles = max(5, min(num_articles, 50))`. -/
def clampNumArticles (n : Int) : Int := max 5 (min n 50)

/-- The query list of `_generate_news_report`: the topic plus, when extra
keywords were supplied (and the list is truthy), at most the first three. -/
def reportQueries (topic : String) (keywords : Option (List String)) : List String :=
  topic :: (match keywords with
            | some ks => ks.take 3
            | none => [])

/-- The per-query `display` parameter:
`min(max(5, num_articles // len(search_queries)), 100)` (the clamped
`num_articles` divided by the number of queries, both positive, so floor and
truncating division agree). -/
def reportDisplayCount (numArticles : Int) (queries : List String) : Int :=
  min (max 5 (numArticles / (queries.length : Int))) 100

/-- The cleaned title of one stream element. -/
def cleanedTitle (p : String × RawItem) : String := clean_html_tags (p.2.title.getD "")

/-- The article sequence `_generate_news_report` reports on:
`all_articles[:num_articles]` after collection. -/
def aggregationResult (fetch : ReqParams → FetchResult) (topic : String)
    (keywords : Option (List String)) (numArticles : Int) : List Article :=
  let num := clampNumArticles numArticles
  let queries := reportQueries topic keywords
  ((reportAccum fetch queries (reportDisplayCount num queries)).1).take num.toNat

/-- `_build_report`: the research report document; `now` stands for the
embedded `datetime.now()` timestamp. -/
def build_report (now : String) (topic : String) (search_queries : List String)
    (articles : List Article) (include_links : Bool) : String :=
  let sep := String.mk (List.replicate 60 '=')
  let header := [
    sep, "# 📊 뉴스 리서치 레포트: " ++ topic, sep, "",
    "**생성일시:** " ++ now,
    "**분석 기사 수:** " ++ toString articles.length ++ "개",
    "**검색 키워드:** " ++ String.intercalate ", " search_queries,
    "", "---", "", "## 📋 레포트 개요", "",
    "본 레포트는 '" ++ topic ++ "'에 관한 최신 뉴스 기사를 수집하여 정리한 것입니다.",
    "아래에서 주요 뉴스 내용과 핵심 포인트를 확인하실 수 있습니다.",
    "", "---", "", "## 📰 주요 뉴스 요약", ""]
  let body := articles.enum.flatMap (fun p =>
    let i := p.1 + 1
    let article := p.2
    ["### " ++ toString i ++ ". " ++ article.title,
     "📅 **발행일:** " ++ article.pubDate, "",
     "**내용 요약:**", "> " ++ article.description, ""]
    ++ (if include_links then
          (if article.originallink ≠ "" then ["🔗 [원문 보기](" ++ article.originallink ++ ")"] else [])
          ++ (if article.link ≠ "" ∧ article.link ≠ article.originallink
              then ["🔗 [네이버 뉴스](" ++ article.link ++ ")"] else [])
        else [])
    ++ ["", "---", ""])
  let footer := ["", "---", "*본 레포트는 네이버 뉴스 검색 API를 통해 자동 생성되었습니다.*"]
  String.intercalate "\n" (header ++ body ++ footer)

/-- `_generate_news_report`: credential check, clamping, multi-query
collection with dedup, truncation, and report building. -/
def generate_news_report (cfg : Config) (now : String) (fetch : ReqParams → FetchResult)
    (topic : String) (keywords : Option (List String) := none) (numArticles : Int := 15)
    (includeLinks : Bool := true) : List TextContent :=
  if isFalsy cfg.client_id ∨ isFalsy cfg.client_secret then
    [textContent naverCredMissingText]
  else
    let num := clampNumArticles numArticles
    let queries := reportQueries topic keywords
    let st := reportAccum fetch queries (reportDisplayCount num queries)
    if st.1 = [] then
      [textContent ("'" ++ topic ++ "'에 대한 뉴스 기사를 찾을 수 없습니다.")]
    else
      [textContent (build_report now topic queries (st.1.take num.toNat) includeLinks)]

/-! ### `_search_and_summarize_news` and its formatter -/

/-- One entry of `all_news_data`; `title` and `body` stand for the Korean
dict keys 제목 and 본문 of the source. -/
structure NewsEntry where
  id : String
  keyword : String
  title : String
  body : String
  link : String
  pubDate : String
  deriving DecidableEq

/-- The entries collected for one keyword: from a 200 response, one entry per
item with a 1-based per-keyword ordinal id; non-200 statuses and network
errors contribute nothing. -/
def collectKeyword (fetch : ReqParams → FetchResult) (num : Int) (keyword : String) :
    List NewsEntry :=
  match fetch { query := keyword, display := num, start := 1, sort := "date" } with
  | .httpOk data =>
      (data.items.getD []).enum.map (fun p =>
        { id := keyword ++ "_" ++ toString (p.1 + 1),
          keyword := keyword,
          title := clean_html_tags (p.2.title.getD ""),
          body := clean_html_tags (p.2.description.getD ""),
          link := (let ol := p.2.originallink.getD ""
                   if ol ≠ "" then ol else p.2.link.getD ""),
          pubDate := p.2.pubDate.getD "" })
  | .httpErr _ _ => []
  | .netErr _ => []

/-- Group `original_news` by keyword, preserving first-seen keyword order and
per-keyword insertion order (Python dict semantics). -/
def groupByKeyword (l : List NewsEntry) : List (String × List NewsEntry) :=
  l.foldl (fun acc item =>
    if acc.any (fun g => g.1 == item.keyword) then
      acc.map (fun g => if g.1 == item.keyword then (g.1, g.2 ++ [item]) else g)
    else acc ++ [(item.keyword, [item])]) []

/-- `_format_summary_result`: the AI summary report around the raw Claude
response, with a links section grouped by keyword. -/
def format_summary_result (now : String) (claude_response : String)
    (original_news : List NewsEntry) : String :=
  let sep := String.mk (List.replicate 60 '=')
  let header := [
    sep, "# 📰 AI 뉴스 요약 리포트", sep, "",
    "**생성일시:** " ++ now,
    "**분석 기사 수:** " ++ toString original_news.length ++ "개",
    "", "---", "", "## 📋 Claude AI 분석 결과", "",
    claude_response, "", "---", "", "## 🔗 원문 링크", ""]
  let linkLines := (groupByKeyword original_news).flatMap (fun g =>
    ["### 🏷️ " ++ g.1]
    ++ g.2.flatMap (fun item =>
         ["- [" ++ item.title ++ "](" ++ item.link ++ ")", "  📅 " ++ item.pubDate])
    ++ [""])
  let footer := ["---", "*본 요약은 Claude AI를 활용하여 자동 생성되었습니다.*"]
  String.intercalate "\n" (header ++ linkLines ++ footer)

/-- Result of running `_search_and_summarize_news`: the returned content,
the trace of outbound search GETs, whether the Claude completion endpoint was
called, and the collected news data. -/
structure SummarizeRun where
  response : List TextContent
  searchCalls : List ReqParams
  claudeCalled : Bool
  newsData : List NewsEntry
  deriving DecidableEq

/-- `_search_and_summarize_news`: credential checks (Naver first, then the
Claude client), clamping, at most the first five keywords searched, then one
completion call through the opaque `complete` oracle
(`_summarize_with_claude`); a raised completion error is caught and rendered
as text. -/
def search_and_summarize_news (cfg : Config) (now : String)
    (complete : List NewsEntry → Option (List String) → PyResult String)
    (fetch : ReqParams → FetchResult) (keywords : List String) (numArticles : Int := 5)
    (includeKeywordCuration : Bool := true) : SummarizeRun :=
  if isFalsy cfg.client_id ∨ isFalsy cfg.client_secret then
    { response := [textContent naverCredMissingText], searchCalls := [], claudeCalled := false,
      newsData := [] }
  else if isFalsy cfg.claude_api_key then
    { response := [textContent claudeCredMissingText], searchCalls := [], claudeCalled := false,
      newsData := [] }
  else
    let num := max 1 (min numArticles 10)
    let kws := keywords.take 5
    let calls := kws.map (fun k => ({ query := k, display := num, start := 1, sort := "date" } : ReqParams))
    let all_news_data := kws.flatMap (collectKeyword fetch num)
    if all_news_data = [] then
      { response := [textContent ("검색된 뉴스가 없습니다. 키워드: " ++ String.intercalate ", " kws)],
        searchCalls := calls, claudeCalled := false, newsData := [] }
    else
      match complete all_news_data (if includeKeywordCuration then some kws else none) with
      | .ok text =>
          { response := [textContent (format_summary_result now text all_news_data)],
            searchCalls := calls, claudeCalled := true, newsData := all_news_data }
      | .exn e =>
          { response := [textContent ("요약 생성 중 오류가 발생했습니다: " ++ e)],
            searchCalls := calls, claudeCalled := true, newsData := all_news_data }

/-! ### Derived observations used in the statements -/

/-- Whether the loops over `queries` and `items` keep their state unchanged
or append one article is decided per item; `countTitle t l` counts the
articles of `l` whose (cleaned) title is `t`. -/
def countTitle (t : String) (l : List Article) : Nat :=
  (l.filter (fun a => a.title == t)).length

/-- Boolean test: query `q` returns (under `fetch`, with the given per-query
`display`) at least one item whose cleaned title is `t`. -/
def producesTitleB (fetch : ReqParams → FetchResult) (display : Int) (q t : String) : Bool :=
  (itemsOf fetch display q).any (fun item => clean_html_tags (item.title.getD "") == t)

/-! ### Concrete fixtures for witnesses and counterexamples -/

/-- Handler oracle that returns an empty content list for every tool. -/
def run0 : String → PyResult (List TextContent) := fun _ => PyResult.ok []

/-- Configuration with Naver credentials only. -/
def cfgNaver : Config := { client_id := some "id", client_secret := some "secret",
                           claude_api_key := none }

/-- Configuration with no credentials at all. -/
def cfgNone : Config := { client_id := none, client_secret := none, claude_api_key := none }

/-- Configuration with all three credentials. -/
def cfgFull : Config := { client_id := some "id", client_secret := some "secret",
                          claude_api_key := some "key" }

/-- Fetch oracle that fails with a network error on every request. -/
def fetchNet : ReqParams → FetchResult := fun _ => FetchResult.netErr "boom"

/-- Completion oracle returning a fixed summary text. -/
def complete0 : List NewsEntry → Option (List String) → PyResult String :=
  fun _ _ => PyResult.ok "요약"

/-- Fetch oracle where the queries `q1` and `q2` both return one item whose
cleaned title is empty (`"<b>"` cleans to `""`). -/
def fetchDup : ReqParams → FetchResult := fun p =>
  if p.query == "q1" ∨ p.query == "q2" then
    FetchResult.httpOk { items := some [{ title := some "<b>" }] }
  else FetchResult.netErr "boom"

/-- Fetch oracle where `q1` returns five filler items followed by an item
titled `X`, and `q2` returns an item titled `X` as well. -/
def fetchTrunc : ReqParams → FetchResult := fun p =>
  if p.query == "q1" then
    FetchResult.httpOk { items := some (
      [{ title := some "t1" }, { title := some "t2" }, { title := some "t3" },
       { title := some "t4" }, { title := some "t5" }, { title := some "X" }]) }
  else if p.query == "q2" then
    FetchResult.httpOk { items := some [{ title := some "X" }] }
  else FetchResult.netErr "boom"

/-- Fetch oracle where `q1` and `q2` both return an item titled `X` (and a
distinct filler each). -/
def fetchShared : ReqParams → FetchResult := fun p =>
  if p.query == "q1" then
    FetchResult.httpOk { items := some [{ title := some "A" }, { title := some "X" }] }
  else if p.query == "q2" then
    FetchResult.httpOk { items := some [{ title := some "X" }, { title := some "B" }] }
  else FetchResult.netErr "boom"

/-- Fetch oracle for the truncation example: query `T` returns 13 uniquely
titled items and query `K` another 12, so 25 unique titles in total. -/
def fetch25 : ReqParams → FetchResult := fun p =>
  if p.query == "T" then
    FetchResult.httpOk { items := some (
      [{ title := some "a01" }, { title := some "a02" }, { title := some "a03" },
       { title := some "a04" }, { title := some "a05" }, { title := some "a06" },
       { title := some "a07" }, { title := some "a08" }, { title := some "a09" },
       { title := some "a10" }, { title := some "a11" }, { title := some "a12" },
       { title := some "a13" }]) }
  else if p.query == "K" then
    FetchResult.httpOk { items := some (
      [{ title := some "b01" }, { title := some "b02" }, { title := some "b03" },
       { title := some "b04" }, { title := some "b05" }, { title := some "b06" },
       { title := some "b07" }, { title := some "b08" }, { title := some "b09" },
       { title := some "b10" }, { title := some "b11" }, { title := some "b12" }]) }
  else FetchResult.netErr "boom"

/-- The first ten articles the aggregation of `fetch25` yields. -/
def firstTenArticles : List Article :=
  ["a01", "a02", "a03", "a04", "a05", "a06", "a07", "a08", "a09", "a10"].map
    (fun t => { title := t, description := "", originallink := "", link := "",
                pubDate := "", search_query := "T" })

/-- Fetch oracle where query `q` returns one item with an empty cleaned title
followed by one normally titled item. -/
def fetchMixed : ReqParams → FetchResult := fun p =>
  if p.query == "q" then
    FetchResult.httpOk { items := some [{ title := some "<b>" }, { title := some "ok" }] }
  else FetchResult.netErr "boom"

/-- The article `fetchMixed` aggregation keeps. -/
def okArticle : Article :=
  { title := "ok", description := "", originallink := "", link := "", pubDate := "",
    search_query := "q" }

/-! ## Lemmas about the text cleaning -/

theorem stripGo_id (fuel : Nat) (l : List Char) (h : '<' ∉ l) : stripGo fuel l = l := by
  induction fuel generalizing l with
  | zero => cases l <;> rfl
  | succ fuel ih =>
    cases l with
    | nil => rfl
    | cons c rest =>
      have h1 : ¬ c = '<' := fun hc => h (hc ▸ List.mem_cons_self _ _)
      have h2 : '<' ∉ rest := fun hm => h (List.mem_cons_of_mem _ hm)
      simp [stripGo, h1, ih rest h2]

theorem repGo_id (p : Char) (ps rep : List Char) (fuel : Nat) (l : List Char) (h : p ∉ l) :
    repGo p ps rep fuel l = l := by
  induction fuel generalizing l with
  | zero => cases l <;> rfl
  | succ fuel ih =>
    cases l with
    | nil => rfl
    | cons c rest =>
      have h1 : ¬ p = c := fun hc => h (hc ▸ List.mem_cons_self _ _)
      have h2 : p ∉ rest := fun hm => h (List.mem_cons_of_mem _ hm)
      have hpre : ((p :: ps).isPrefixOf (c :: rest)) = false := by
        simp [List.isPrefixOf, h1]
      simp [repGo, hpre, ih rest h2]

theorem mk_toList (s : String) : String.mk s.toList = s := rfl

theorem replaceAll_id (s pat rep : String) (p : Char) (ps : List Char)
    (hp : pat.toList = p :: ps) (h : p ∉ s.toList) : replaceAll s pat rep = s := by
  unfold replaceAll
  rw [hp]
  have hgo : String.mk (repGo p ps rep.toList s.toList.length s.toList) = String.mk s.toList :=
    congrArg String.mk (repGo_id p ps rep.toList _ _ h)
  exact hgo.trans (mk_toList s)

theorem clean_html_tags_id (t : String) (h : ∀ c ∈ t.toList, c ≠ '<' ∧ c ≠ '&') :
    clean_html_tags t = t := by
  have hlt : '<' ∉ t.toList := fun hm => (h _ hm).1 rfl
  have hamp : '&' ∉ t.toList := fun hm => (h _ hm).2 rfl
  have hstrip : String.mk (stripTags t.toList) = t := by
    rw [stripTags, stripGo_id _ _ hlt]
    exact mk_toList t
  have h1 : replaceAll t "&quot;" "\"" = t :=
    replaceAll_id t _ _ '&' ['q', 'u', 'o', 't', ';'] (by decide) hamp
  have h2 : replaceAll t "&amp;" "&" = t :=
    replaceAll_id t _ _ '&' ['a', 'm', 'p', ';'] (by decide) hamp
  have h3 : replaceAll t "&lt;" "<" = t :=
    replaceAll_id t _ _ '&' ['l', 't', ';'] (by decide) hamp
  have h4 : replaceAll t "&gt;" ">" = t :=
    replaceAll_id t _ _ '&' ['g', 't', ';'] (by decide) hamp
  have h5 : replaceAll t "&apos;" aposStr = t :=
    replaceAll_id t _ _ '&' ['a', 'p', 'o', 's', ';'] (by decide) hamp
  show replaceAll (replaceAll (replaceAll (replaceAll (replaceAll
    (String.mk (stripTags t.toList)) "&quot;" "\"") "&amp;" "&") "&lt;" "<") "&gt;" ">")
    "&apos;" aposStr = t
  rw [hstrip, h1, h2, h3, h4, h5]

/-! ## Claim C4 -/

/-- C4: cleaning first removes every `<...>` tag span and then applies the
five entity substitutions once each, in the fixed order
quot, amp, lt, gt, apos, never recursively; cleaning
`"<b>삼성전자</b> 실적 &quot;호조&quot;"` yields `삼성전자 실적 "호조"`.
The second example shows the single left-to-right pass: decoding `&amp;`
does not cause the freshly produced `&quot;` to be decoded again; the third
shows that each substitution is applied exactly once, non-recursively. -/
theorem claim_C4_clean_pipeline :
    (∀ s : String, clean_html_tags s =
        htmlEntityDecode (String.mk (stripTags s.toList))) ∧
    clean_html_tags "<b>삼성전자</b> 실적 &quot;호조&quot;" = "삼성전자 실적 \"호조\"" ∧
    clean_html_tags "&amp;quot;" = "&quot;" ∧
    clean_html_tags "&amp;amp;" = "&amp;" :=
  ⟨fun _ => rfl, by decide, by decide, by decide⟩

/-! ## Claim C5 -/

/-- C5 counterexample: cleaning is not idempotent. The string `"&lt;b&gt;"`
cleans to `"<b>"` (a string in the image of the cleaning function), and
cleaning that result again strips the freshly formed tag, yielding `""`. -/
theorem claim_C5_counterexample :
    clean_html_tags (clean_html_tags "&lt;b&gt;") ≠ clean_html_tags "&lt;b&gt;" := by
  decide

/-- C5 amended: cleaning is a pure function, and it leaves any string free of
the characters `<` and `&` unchanged; hence cleaning is idempotent exactly on
those inputs whose cleaned form contains neither character. In general a
cleaned string can contain new `<...>` spans or entities formed by the
decoding, and cleaning it again changes it. -/
theorem claim_C5_amended_idempotent (s : String)
    (h : ∀ c ∈ (clean_html_tags s).toList, c ≠ '<' ∧ c ≠ '&') :
    clean_html_tags (clean_html_tags s) = clean_html_tags s :=
  clean_html_tags_id _ h

/-- C5 amended, witness: `"<b>hi</b>"` cleans to `"hi"`, which contains
neither `<` nor `&`, and cleaning is idempotent there. -/
theorem claim_C5_amended_witness :
    (∀ c ∈ (clean_html_tags "<b>hi</b>").toList, c ≠ '<' ∧ c ≠ '&') ∧
    clean_html_tags (clean_html_tags "<b>hi</b>") = clean_html_tags "<b>hi</b>" :=
  ⟨by decide, claim_C5_amended_idempotent "<b>hi</b>" (by decide)⟩

/-! ## General helper lemmas -/

theorem string_append_assoc (a b c : String) : a ++ b ++ c = a ++ (b ++ c) :=
  congrArg String.mk (List.append_assoc a.data b.data c.data)

/-! ## Claim C1 -/

/-- C1: every error raised inside a tool handler is caught at the dispatcher
boundary and converted into a single text item prefixed `"Error: "`; no
exception propagates (the result is either the ok value of the handler or a
single `"Error: "`-prefixed text item), and an unknown tool name yields such
an item. -/
theorem claim_C1_dispatcher_error_boundary (run : String → PyResult (List TextContent))
    (name : String) :
    (∀ e, name ∈ knownTools → run name = PyResult.exn e →
        handle_call_tool run name = [textContent ("Error: " ++ e)]) ∧
    (name ∉ knownTools →
        handle_call_tool run name = [textContent ("Error: Unknown tool: " ++ name)]) ∧
    ((∃ r, name ∈ knownTools ∧ run name = PyResult.ok r ∧ handle_call_tool run name = r) ∨
      (∃ msg, handle_call_tool run name = [textContent ("Error: " ++ msg)])) := by
  refine ⟨?_, ?_, ?_⟩
  · intro e hmem hrun
    simp [handle_call_tool, hmem, hrun]
  · intro hmem
    have hform : handle_call_tool run name =
        [textContent ("Error: " ++ ("Unknown tool: " ++ name))] := by
      simp [handle_call_tool, hmem]
    rw [hform, ← string_append_assoc]
    rfl
  · by_cases hmem : name ∈ knownTools
    · cases hrun : run name with
      | ok r => exact Or.inl ⟨r, hmem, rfl, by simp [handle_call_tool, hmem, hrun]⟩
      | exn e => exact Or.inr ⟨e, by simp [handle_call_tool, hmem, hrun]⟩
    · exact Or.inr ⟨"Unknown tool: " ++ name, by simp [handle_call_tool, hmem]⟩

/-- C1 witness: calling the dispatcher with `name="unknown_tool"` returns
the single `"Error: "`-prefixed text item. -/
theorem claim_C1_witness :
    "unknown_tool" ∉ knownTools ∧
    handle_call_tool run0 "unknown_tool" =
      [textContent ("Error: Unknown tool: " ++ "unknown_tool")] :=
  ⟨by decide, (claim_C1_dispatcher_error_boundary run0 "unknown_tool").2.1 (by decide)⟩

/-! ## Claim C6 -/

/-- The request trace of `_search_news` is either empty (missing
credentials) or the single clamped request. -/
theorem search_news_calls (cfg : Config) (query : String) (display start : Int)
    (sort : String) (fetch : ReqParams → FetchResult) :
    (search_news cfg query display start sort fetch).calls = [] ∨
    (search_news cfg query display start sort fetch).calls =
      [⟨query, clampDisplay display, clampStart start, validateSort sort⟩] := by
  unfold search_news
  by_cases hcr : isFalsy cfg.client_id = true ∨ isFalsy cfg.client_secret = true
  · simp [hcr]
  · right
    simp only [hcr, if_false]
    split <;> rfl

/-- C6: every outbound search request carries a display value clamped into
`[1, 100]` and a start value clamped into `[1, 1000]` (clamping happens
before the network call, so the issued request already satisfies the
bounds), and a sort value outside `{sim, date}` is replaced by the
relevance default `"sim"`. -/
theorem claim_C6_params_clamped (cfg : Config) (query : String) (display start : Int)
    (sort : String) (fetch : ReqParams → FetchResult) (p : ReqParams)
    (hp : p ∈ (search_news cfg query display start sort fetch).calls) :
    1 ≤ p.display ∧ p.display ≤ 100 ∧ 1 ≤ p.start ∧ p.start ≤ 1000 ∧
    (p.sort = "sim" ∨ p.sort = "date") ∧
    (¬(sort = "sim" ∨ sort = "date") → p.sort = "sim") ∧
    p.display = clampDisplay display ∧ p.start = clampStart start := by
  have hparams : p = ⟨query, clampDisplay display, clampStart start, validateSort sort⟩ := by
    rcases search_news_calls cfg query display start sort fetch with hc | hc <;> rw [hc] at hp
    · simp at hp
    · simpa using hp
  subst hparams
  refine ⟨le_max_left _ _, max_le (by norm_num) (min_le_right _ _),
    le_max_left _ _, max_le (by norm_num) (min_le_right _ _), ?_, ?_, rfl, rfl⟩
  · by_cases hs : sort = "sim" ∨ sort = "date"
    · simp [validateSort, hs]
    · simp [validateSort, hs]
  · intro hs
    simp [validateSort, hs]

/-- C6 witness: with out-of-range `display=500`, `start=-3` and an invalid
sort, the single issued request is `display=100`, `start=1`, `sort="sim"`. -/
theorem claim_C6_witness :
    (⟨"q", 100, 1, "sim"⟩ : ReqParams) ∈
        (search_news cfgNaver "q" 500 (-3) "asc" fetchNet).calls ∧
    (1 ≤ (⟨"q", 100, 1, "sim"⟩ : ReqParams).display ∧
      (⟨"q", 100, 1, "sim"⟩ : ReqParams).display ≤ 100 ∧
      1 ≤ (⟨"q", 100, 1, "sim"⟩ : ReqParams).start ∧
      (⟨"q", 100, 1, "sim"⟩ : ReqParams).start ≤ 1000) :=
  ⟨by decide, by
    have := claim_C6_params_clamped cfgNaver "q" 500 (-3) "asc" fetchNet
      ⟨"q", 100, 1, "sim"⟩ (by decide)
    exact ⟨this.1, this.2.1, this.2.2.1, this.2.2.2.1⟩⟩

/-! ## Claim C7 -/

/-- C7: `get_category_news` fails with the unknown-category error (issuing
no request) when the category id is not in the registry; otherwise it issues
a search whose query is the first seed keyword of the category; the `tech`
category searches with query `"IT"`, and the defaults of the function are
`display=10`, `sort="date"`. -/
theorem claim_C7_category_news (cfg : Config) (fetch : ReqParams → FetchResult)
    (display : Int) (sort : String) :
    (∀ category, NEWS_CATEGORIES.lookup category = none →
        get_category_news cfg fetch category display sort =
          { response := [textContent (unknownCategoryText category)], calls := [] }) ∧
    (∀ category cat_info, NEWS_CATEGORIES.lookup category = some cat_info →
        get_category_news cfg fetch category display sort =
          search_news cfg (cat_info.keywords.headD "") display 1 sort fetch) ∧
    ((NEWS_CATEGORIES.lookup "tech").map (fun c => c.keywords.headD "") = some "IT") ∧
    (get_category_news cfg fetch "tech" =
      search_news cfg "IT" 10 1 "date" fetch) := by
  refine ⟨?_, ?_, by decide, rfl⟩
  · intro category h
    simp [get_category_news, h]
  · intro category cat_info h
    simp [get_category_news, h]

/-- C7 witness: the id `"weather"` is not registered, so the call fails with
the unknown-category text and issues no request; `tech` resolves to query
`"IT"`. -/
theorem claim_C7_witness :
    NEWS_CATEGORIES.lookup "weather" = none ∧
    get_category_news cfgNaver fetchNet "weather" 10 "date" =
      { response := [textContent (unknownCategoryText "weather")], calls := [] } :=
  ⟨by decide, (claim_C7_category_news cfgNaver fetchNet 10 "date").1 "weather" (by decide)⟩

/-! ## Claim C8 -/

/-- C8: the credential checks are eager. With the Naver credentials absent
(or empty), `_search_news` and `_search_and_summarize_news` return the
single missing-credential text and issue no request; with the Naver
credentials present but the Claude key absent, `_search_and_summarize_news`
returns the single missing-key text, issues no search request and never
calls the completion endpoint. -/
theorem claim_C8_eager_credential_checks (cfg : Config) (query : String)
    (display start : Int) (sort : String) (fetch : ReqParams → FetchResult)
    (now : String) (complete : List NewsEntry → Option (List String) → PyResult String)
    (keywords : List String) (numArticles : Int) (cur : Bool) :
    ((isFalsy cfg.client_id ∨ isFalsy cfg.client_secret) →
        search_news cfg query display start sort fetch =
          { response := [textContent naverCredMissingText], calls := [] }) ∧
    ((isFalsy cfg.client_id ∨ isFalsy cfg.client_secret) →
        search_and_summarize_news cfg now complete fetch keywords numArticles cur =
          { response := [textContent naverCredMissingText], searchCalls := [],
            claudeCalled := false, newsData := [] }) ∧
    (¬(isFalsy cfg.client_id ∨ isFalsy cfg.client_secret) → isFalsy cfg.claude_api_key →
        search_and_summarize_news cfg now complete fetch keywords numArticles cur =
          { response := [textContent claudeCredMissingText], searchCalls := [],
            claudeCalled := false, newsData := [] }) := by
  refine ⟨?_, ?_, ?_⟩
  · intro h
    simp [search_news, h]
  · intro h
    simp [search_and_summarize_news, h]
  · intro h hclaude
    simp [search_and_summarize_news, h, hclaude]

/-- C8 witness: with no credentials at all the search tool answers with the
Naver text and no call; with Naver configured but no Claude key the
summarize tool answers with the Claude text, no search and no completion. -/
theorem claim_C8_witness :
    search_news cfgNone "q" 10 1 "sim" fetchNet =
      { response := [textContent naverCredMissingText], calls := [] } ∧
    search_and_summarize_news cfgNaver "now" complete0 fetchNet ["k"] 5 true =
      { response := [textContent claudeCredMissingText], searchCalls := [],
        claudeCalled := false, newsData := [] } :=
  ⟨(claim_C8_eager_credential_checks cfgNone "q" 10 1 "sim" fetchNet "now" complete0 ["k"] 5
      true).1 (by decide),
   (claim_C8_eager_credential_checks cfgNaver "q" 10 1 "sim" fetchNet "now" complete0 ["k"] 5
      true).2.2 (by decide) (by decide)⟩

/-! ## Claim C10 -/

/-- The search trace of `_search_and_summarize_news` is empty on a failed
credential check and otherwise one request per retained keyword, with the
clamped per-keyword count. -/
theorem summarize_searchCalls (cfg : Config) (now : String)
    (complete : List NewsEntry → Option (List String) → PyResult String)
    (fetch : ReqParams → FetchResult) (keywords : List String) (numArticles : Int)
    (cur : Bool) :
    (search_and_summarize_news cfg now complete fetch keywords numArticles cur).searchCalls = [] ∨
    (search_and_summarize_news cfg now complete fetch keywords numArticles cur).searchCalls =
      (keywords.take 5).map
        (fun k => (⟨k, max 1 (min numArticles 10), 1, "date"⟩ : ReqParams)) := by
  unfold search_and_summarize_news
  by_cases h1 : isFalsy cfg.client_id = true ∨ isFalsy cfg.client_secret = true
  · simp [h1]
  · by_cases h2 : isFalsy cfg.claude_api_key = true
    · simp [h1, h2]
    · right
      rw [if_neg h1, if_neg h2]
      dsimp only
      split
      · rfl
      · split <;> rfl

/-- C10: `_search_and_summarize_news` uses at most the first five keywords:
the run is unchanged if the keyword list is replaced by its first five
elements (so later keywords cause no search and contribute nothing), at most
five requests are issued, and every issued request carries the per-keyword
article count clamped into `[1, 10]`. -/
theorem claim_C10_keyword_limit (cfg : Config) (now : String)
    (complete : List NewsEntry → Option (List String) → PyResult String)
    (fetch : ReqParams → FetchResult) (keywords : List String) (numArticles : Int)
    (cur : Bool) :
    search_and_summarize_news cfg now complete fetch keywords numArticles cur =
      search_and_summarize_news cfg now complete fetch (keywords.take 5) numArticles cur ∧
    (search_and_summarize_news cfg now complete fetch keywords numArticles cur).searchCalls.length ≤ 5 ∧
    (∀ p ∈ (search_and_summarize_news cfg now complete fetch keywords numArticles cur).searchCalls,
        p.display = max 1 (min numArticles 10) ∧ 1 ≤ p.display ∧ p.display ≤ 10) := by
  refine ⟨?_, ?_, ?_⟩
  · simp only [search_and_summarize_news, List.take_take]
    norm_num
  · rcases summarize_searchCalls cfg now complete fetch keywords numArticles cur with hc | hc <;>
      rw [hc]
    · simp
    · simp
  · intro p hp
    rcases summarize_searchCalls cfg now complete fetch keywords numArticles cur with hc | hc <;>
      rw [hc] at hp
    · simp at hp
    · rcases List.mem_map.mp hp with ⟨k, _, rfl⟩
      exact ⟨rfl, le_max_left _ _, max_le (by norm_num) (min_le_right _ _)⟩

/-- C10 witness: with six keywords only five requests are issued; the first
request is for `k1` with the clamped display 5. -/
theorem claim_C10_witness :
    (search_and_summarize_news cfgFull "now" complete0 fetchNet
        ["k1", "k2", "k3", "k4", "k5", "k6"] 5 true).searchCalls.length ≤ 5 ∧
    ((⟨"k1", 5, 1, "date"⟩ : ReqParams).display = max 1 (min 5 10) ∧
      1 ≤ (⟨"k1", 5, 1, "date"⟩ : ReqParams).display ∧
      (⟨"k1", 5, 1, "date"⟩ : ReqParams).display ≤ 10) :=
  ⟨(claim_C10_keyword_limit cfgFull "now" complete0 fetchNet
      ["k1", "k2", "k3", "k4", "k5", "k6"] 5 true).2.1,
   (claim_C10_keyword_limit cfgFull "now" complete0 fetchNet
      ["k1", "k2", "k3", "k4", "k5", "k6"] 5 true).2.2 ⟨"k1", 5, 1, "date"⟩ (by decide)⟩

/-! ## Lemmas about the report aggregation fold -/

theorem foldStream_cons (p : String × RawItem) (l : List (String × RawItem))
    (st : List Article × List String) :
    foldStream (p :: l) st = foldStream l (dedupInsert p.1 st p.2) := rfl

theorem dedupInsert_pos (q : String) (st : List Article × List String) (item : RawItem)
    (h1 : clean_html_tags (item.title.getD "") ≠ "")
    (h2 : clean_html_tags (item.title.getD "") ∉ st.2) :
    dedupInsert q st item =
      (st.1 ++ [mkArticle q item], st.2 ++ [clean_html_tags (item.title.getD "")]) := by
  simp [dedupInsert, h1, h2]

theorem dedupInsert_neg (q : String) (st : List Article × List String) (item : RawItem)
    (h : ¬(clean_html_tags (item.title.getD "") ≠ "" ∧
        clean_html_tags (item.title.getD "") ∉ st.2)) :
    dedupInsert q st item = st := by
  simp only [dedupInsert]
  rw [if_neg h]

theorem dedupInsert_inv (q : String) (st : List Article × List String) (item : RawItem)
    (hinv : st.2 = st.1.map Article.title) :
    (dedupInsert q st item).2 = (dedupInsert q st item).1.map Article.title := by
  by_cases hc : clean_html_tags (item.title.getD "") ≠ "" ∧
      clean_html_tags (item.title.getD "") ∉ st.2
  · rw [dedupInsert_pos q st item hc.1 hc.2]
    simp [hinv, mkArticle]
  · rw [dedupInsert_neg q st item hc]
    exact hinv

theorem reportAccum_eq_foldStream (fetch : ReqParams → FetchResult) (queries : List String)
    (display : Int) :
    reportAccum fetch queries display = foldStream (streamOf fetch display queries) ([], []) := by
  suffices h : ∀ st : List Article × List String,
      queries.foldl (fun st q => (itemsOf fetch display q).foldl (dedupInsert q) st) st =
        foldStream (streamOf fetch display queries) st from h ([], [])
  induction queries with
  | nil => intro st; rfl
  | cons q qs ih =>
    intro st
    have hstream : streamOf fetch display (q :: qs) =
        (itemsOf fetch display q).map (fun item => (q, item)) ++ streamOf fetch display qs := by
      simp [streamOf]
    have happ : foldStream ((itemsOf fetch display q).map (fun item => (q, item)) ++
        streamOf fetch display qs) st =
          foldStream (streamOf fetch display qs)
            (foldStream ((itemsOf fetch display q).map (fun item => (q, item))) st) :=
      List.foldl_append _ _ _ _
    have hmap : foldStream ((itemsOf fetch display q).map (fun item => (q, item))) st =
        (itemsOf fetch display q).foldl (dedupInsert q) st := by
      rw [foldStream, List.foldl_map]
    rw [List.foldl_cons, ih, hstream, happ, hmap]

theorem foldStream_inv (l : List (String × RawItem)) (st : List Article × List String)
    (hinv : st.2 = st.1.map Article.title) :
    (foldStream l st).2 = (foldStream l st).1.map Article.title := by
  induction l generalizing st with
  | nil => exact hinv
  | cons p l ih =>
    rw [foldStream_cons]
    exact ih _ (dedupInsert_inv p.1 st p.2 hinv)

theorem foldStream_nodup (l : List (String × RawItem)) (st : List Article × List String)
    (h : st.2.Nodup) : (foldStream l st).2.Nodup := by
  induction l generalizing st with
  | nil => exact h
  | cons p l ih =>
    rw [foldStream_cons]
    apply ih
    by_cases hc : clean_html_tags (p.2.title.getD "") ≠ "" ∧
        clean_html_tags (p.2.title.getD "") ∉ st.2
    · rw [dedupInsert_pos p.1 st p.2 hc.1 hc.2]
      simp [List.nodup_append, h, hc.2]
    · rw [dedupInsert_neg p.1 st p.2 hc]
      exact h

theorem foldStream_ext (l : List (String × RawItem)) (st : List Article × List String) :
    ∃ ext, foldStream l st = (st.1 ++ ext, st.2 ++ ext.map Article.title) ∧
      List.Sublist ext (l.map (fun p => mkArticle p.1 p.2)) ∧ ∀ a ∈ ext, a.title ≠ "" := by
  induction l generalizing st with
  | nil => exact ⟨[], by simp [foldStream], List.nil_sublist _, by simp⟩
  | cons p l ih =>
    rw [foldStream_cons]
    by_cases hc : clean_html_tags (p.2.title.getD "") ≠ "" ∧
        clean_html_tags (p.2.title.getD "") ∉ st.2
    · rw [dedupInsert_pos p.1 st p.2 hc.1 hc.2]
      obtain ⟨ext, heq, hsub, hne⟩ :=
        ih (st.1 ++ [mkArticle p.1 p.2], st.2 ++ [clean_html_tags (p.2.title.getD "")])
      refine ⟨mkArticle p.1 p.2 :: ext, ?_, List.Sublist.cons₂ _ hsub, ?_⟩
      · rw [heq]
        simp [mkArticle]
      · intro a ha
        rcases List.mem_cons.mp ha with rfl | ha
        · exact hc.1
        · exact hne a ha
    · rw [dedupInsert_neg p.1 st p.2 hc]
      obtain ⟨ext, heq, hsub, hne⟩ := ih st
      exact ⟨ext, heq, List.Sublist.cons _ hsub, hne⟩

theorem countTitle_append (t : String) (l₁ l₂ : List Article) :
    countTitle t (l₁ ++ l₂) = countTitle t l₁ + countTitle t l₂ := by
  simp [countTitle, List.filter_append]

theorem countTitle_zero_iff (t : String) (l : List Article) :
    countTitle t l = 0 ↔ ∀ a ∈ l, a.title ≠ t := by
  simp [countTitle, List.length_eq_zero, List.filter_eq_nil_iff]

theorem countTitle_unique (t : String) (l : List Article) (h : countTitle t l = 1)
    (a b : Article) (ha : a ∈ l) (hat : a.title = t) (hb : b ∈ l) (hbt : b.title = t) :
    a = b := by
  have ha' : a ∈ l.filter (fun x => x.title == t) := List.mem_filter.mpr ⟨ha, by simp [hat]⟩
  have hb' : b ∈ l.filter (fun x => x.title == t) := List.mem_filter.mpr ⟨hb, by simp [hbt]⟩
  obtain ⟨x, hx⟩ := List.length_eq_one.mp h
  rw [hx] at ha' hb'
  simp only [List.mem_singleton] at ha' hb'
  rw [ha', hb']

theorem countTitle_zero_of_not_seen (st : List Article × List String) (t : String)
    (hinv : st.2 = st.1.map Article.title) (h : t ∉ st.2) : countTitle t st.1 = 0 := by
  rw [countTitle_zero_iff]
  intro a ha hat
  exact h (by rw [hinv]; exact List.mem_map.mpr ⟨a, ha, hat⟩)

theorem foldStream_count_of_seen (l : List (String × RawItem))
    (st : List Article × List String) (t : String)
    (hinv : st.2 = st.1.map Article.title) (hseen : t ∈ st.2) :
    countTitle t (foldStream l st).1 = countTitle t st.1 := by
  induction l generalizing st with
  | nil => rfl
  | cons p l ih =>
    rw [foldStream_cons]
    by_cases hc : clean_html_tags (p.2.title.getD "") ≠ "" ∧
        clean_html_tags (p.2.title.getD "") ∉ st.2
    · rw [dedupInsert_pos p.1 st p.2 hc.1 hc.2]
      have hne : (mkArticle p.1 p.2).title ≠ t := by
        intro he
        apply hc.2
        show clean_html_tags (p.2.title.getD "") ∈ st.2
        have heq : clean_html_tags (p.2.title.getD "") = t := he
        rw [heq]
        exact hseen
      rw [ih _ (by simp [hinv, mkArticle]) (List.mem_append_left _ hseen),
        countTitle_append]
      have hz : countTitle t [mkArticle p.1 p.2] = 0 := by
        simp [countTitle, hne]
      rw [hz, Nat.add_zero]
    · rw [dedupInsert_neg p.1 st p.2 hc]
      exact ih st hinv hseen

theorem foldStream_first (l : List (String × RawItem)) (st : List Article × List String)
    (t : String) (hinv : st.2 = st.1.map Article.title) (hnot : t ∉ st.2) (ht : t ≠ "") :
    (l.find? (fun p => cleanedTitle p == t) = none →
        countTitle t (foldStream l st).1 = 0) ∧
    (∀ p₀, l.find? (fun p => cleanedTitle p == t) = some p₀ →
        countTitle t (foldStream l st).1 = 1 ∧
        mkArticle p₀.1 p₀.2 ∈ (foldStream l st).1 ∧
        (∀ a ∈ (foldStream l st).1, a.title = t → a = mkArticle p₀.1 p₀.2)) := by
  induction l generalizing st with
  | nil =>
    constructor
    · intro _
      exact countTitle_zero_of_not_seen st t hinv hnot
    · intro p₀ h
      simp at h
  | cons p l ih =>
    by_cases hp : cleanedTitle p = t
    · have hp' : clean_html_tags (p.2.title.getD "") = t := hp
      have hfind : (p :: l).find? (fun x => cleanedTitle x == t) = some p :=
        List.find?_cons_of_pos _ (by simp [hp])
      have h1 : clean_html_tags (p.2.title.getD "") ≠ "" := by rw [hp']; exact ht
      have h2 : clean_html_tags (p.2.title.getD "") ∉ st.2 := by rw [hp']; exact hnot
      have hstep : foldStream (p :: l) st = foldStream l
          (st.1 ++ [mkArticle p.1 p.2], st.2 ++ [clean_html_tags (p.2.title.getD "")]) := by
        rw [foldStream_cons, dedupInsert_pos p.1 st p.2 h1 h2]
      have hinv' : (st.2 ++ [clean_html_tags (p.2.title.getD "")]) =
          (st.1 ++ [mkArticle p.1 p.2]).map Article.title := by
        simp [hinv, mkArticle]
      have hseen' : t ∈ st.2 ++ [clean_html_tags (p.2.title.getD "")] :=
        List.mem_append_right _ (by rw [hp']; exact List.mem_singleton_self t)
      have htitle : (mkArticle p.1 p.2).title = t := hp'
      have hcnt : countTitle t (foldStream (p :: l) st).1 = 1 := by
        rw [hstep, foldStream_count_of_seen l _ t hinv' hseen', countTitle_append,
          countTitle_zero_of_not_seen st t hinv hnot]
        simp [countTitle, htitle]
      have hmem : mkArticle p.1 p.2 ∈ (foldStream (p :: l) st).1 := by
        obtain ⟨ext, heq, _, _⟩ :=
          foldStream_ext l (st.1 ++ [mkArticle p.1 p.2],
            st.2 ++ [clean_html_tags (p.2.title.getD "")])
        rw [hstep, heq]
        simp
      constructor
      · intro hnone
        rw [hfind] at hnone
        cases hnone
      · intro p₀ hsome
        rw [hfind] at hsome
        injection hsome with hp₀
        subst hp₀
        refine ⟨hcnt, hmem, ?_⟩
        intro a ha hat
        exact countTitle_unique t _ hcnt a (mkArticle p.1 p.2) ha hat hmem htitle
    · have hfind : (p :: l).find? (fun x => cleanedTitle x == t) =
          l.find? (fun x => cleanedTitle x == t) :=
        List.find?_cons_of_neg _ (by simp [hp])
      have hinv' := dedupInsert_inv p.1 st p.2 hinv
      have hnot' : t ∉ (dedupInsert p.1 st p.2).2 := by
        by_cases hc : clean_html_tags (p.2.title.getD "") ≠ "" ∧
            clean_html_tags (p.2.title.getD "") ∉ st.2
        · rw [dedupInsert_pos p.1 st p.2 hc.1 hc.2]
          intro hm
          rcases List.mem_append.mp hm with hm | hm
          · exact hnot hm
          · have hteq : t = clean_html_tags (p.2.title.getD "") := by simpa using hm
            exact hp hteq.symm
        · rw [dedupInsert_neg p.1 st p.2 hc]
          exact hnot
      rw [foldStream_cons, hfind]
      exact ih (dedupInsert p.1 st p.2) hinv' hnot'

theorem stream_find (fetch : ReqParams → FetchResult) (display : Int) (queries : List String)
    (t : String) (h : ∃ q ∈ queries, producesTitleB fetch display q t = true) :
    ∃ p₀, (streamOf fetch display queries).find? (fun p => cleanedTitle p == t) = some p₀ ∧
      queries.find? (fun q => producesTitleB fetch display q t) = some p₀.1 := by
  induction queries with
  | nil => simp at h
  | cons q qs ih =>
    have hstream : streamOf fetch display (q :: qs) =
        (itemsOf fetch display q).map (fun item => (q, item)) ++ streamOf fetch display qs := by
      simp [streamOf]
    have hseg : ((itemsOf fetch display q).map (fun item => (q, item))).find?
        (fun p => cleanedTitle p == t) =
          ((itemsOf fetch display q).find?
            (fun item => clean_html_tags (item.title.getD "") == t)).map
              (fun item => (q, item)) := by
      rw [List.find?_map]
      rfl
    by_cases hq : producesTitleB fetch display q t = true
    · have hex : ∃ item ∈ itemsOf fetch display q,
          (clean_html_tags (item.title.getD "") == t) = true := by
        simpa [producesTitleB, List.any_eq_true] using hq
      have hsome : ((itemsOf fetch display q).find?
          (fun item => clean_html_tags (item.title.getD "") == t)).isSome := by
        rw [List.find?_isSome]
        simpa using hex
      obtain ⟨item₀, hitem₀⟩ := Option.isSome_iff_exists.mp hsome
      refine ⟨(q, item₀), ?_, ?_⟩
      · rw [hstream, List.find?_append, hseg, hitem₀]
        rfl
      · exact List.find?_cons_of_pos _ hq
    · have hnone : ((itemsOf fetch display q).find?
          (fun item => clean_html_tags (item.title.getD "") == t)) = none := by
        rw [List.find?_eq_none]
        intro item hitem hcl
        apply hq
        simp only [producesTitleB, List.any_eq_true]
        exact ⟨item, hitem, hcl⟩
      obtain ⟨q', hq', hprod'⟩ := h
      have hq'' : q' ∈ qs := by
        rcases List.mem_cons.mp hq' with rfl | hmem
        · exact absurd hprod' hq
        · exact hmem
      obtain ⟨p₀, hfind, hqfind⟩ := ih ⟨q', hq'', hprod'⟩
      refine ⟨p₀, ?_, ?_⟩
      · rw [hstream, List.find?_append, hseg, hnone]
        simpa using hfind
      · rw [List.find?_cons_of_neg _ (by simp [hq])]
        exact hqfind

theorem reportAccum_titles_nodup (fetch : ReqParams → FetchResult) (queries : List String)
    (display : Int) : ((reportAccum fetch queries display).1.map Article.title).Nodup := by
  rw [reportAccum_eq_foldStream]
  rw [← foldStream_inv _ ([], []) rfl]
  exact foldStream_nodup _ ([], []) List.nodup_nil

theorem aggregationResult_titles_nodup (fetch : ReqParams → FetchResult) (topic : String)
    (keywords : Option (List String)) (numArticles : Int) :
    ((aggregationResult fetch topic keywords numArticles).map Article.title).Nodup := by
  have h := reportAccum_titles_nodup fetch (reportQueries topic keywords)
    (reportDisplayCount (clampNumArticles numArticles) (reportQueries topic keywords))
  exact h.sublist ((List.take_sublist _ _).map _)

/-! ## Claim C2 -/

/-- C2 counterexample: as stated over the final sequence the claim fails in
two ways. First, both `q1` and `q2` return an item whose cleaned title is
`""` (the raw title `"<b>"` cleans to the empty string), yet no item with
that title appears at all — empty cleaned titles are discarded. Second, with
the nonempty title `X` produced by both queries, truncation (num_articles=1,
clamped to 5) cuts the accumulated `X` item away, so again no item with that
title appears in the final sequence. -/
theorem claim_C2_counterexample :
    (producesTitleB fetchDup 7 "q1" "" = true ∧ producesTitleB fetchDup 7 "q2" "" = true ∧
      ¬ countTitle "" (aggregationResult fetchDup "q1" (some ["q2"]) 15) = 1) ∧
    (producesTitleB fetchTrunc 5 "q1" "X" = true ∧
      producesTitleB fetchTrunc 5 "q2" "X" = true ∧ ("X" : String) ≠ "" ∧
      ¬ countTitle "X" (aggregationResult fetchTrunc "q1" (some ["q2"]) 1) = 1) := by
  decide

/-- C2 amended: for every nonempty cleaned title produced by at least one
query, exactly one item with that title appears in the deduplicated
accumulation (the final sequence is a `take`-prefix of it, so truncation may
still drop the item, and an empty cleaned title is discarded); the item is
attributed via `search_query` to the first query that produced the title;
and cleaned titles are unique within one aggregation result. -/
theorem claim_C2_amended_dedup (fetch : ReqParams → FetchResult) (queries : List String)
    (display : Int) (t : String) (ht : t ≠ "")
    (hprod : ∃ q ∈ queries, producesTitleB fetch display q t = true) :
    countTitle t (reportAccum fetch queries display).1 = 1 ∧
    (∀ a ∈ (reportAccum fetch queries display).1, a.title = t →
        queries.find? (fun q => producesTitleB fetch display q t) = some a.search_query) ∧
    (∀ topic keywords numArticles,
        ((aggregationResult fetch topic keywords numArticles).map Article.title).Nodup) := by
  obtain ⟨p₀, hfind, hqfind⟩ := stream_find fetch display queries t hprod
  have hmain := (foldStream_first (streamOf fetch display queries) ([], []) t rfl
    (by simp) ht).2 p₀ hfind
  rw [reportAccum_eq_foldStream]
  refine ⟨hmain.1, ?_, fun topic keywords numArticles =>
    aggregationResult_titles_nodup fetch topic keywords numArticles⟩
  intro a ha hat
  have ha' : a = mkArticle p₀.1 p₀.2 := hmain.2.2 a ha hat
  rw [ha']
  exact hqfind

/-- C2 amended, witness: queries `q1` and `q2` both return an item titled
`X`; the accumulation holds exactly one `X` item, and it is attributed to
`q1`, the first query producing it. -/
theorem claim_C2_amended_witness :
    countTitle "X" (reportAccum fetchShared ["q1", "q2"] 7).1 = 1 ∧
    ["q1", "q2"].find? (fun q => producesTitleB fetchShared 7 q "X") =
      some (⟨"X", "", "", "", "", "q1"⟩ : Article).search_query :=
  ⟨(claim_C2_amended_dedup fetchShared ["q1", "q2"] 7 "X" (by decide)
      ⟨"q1", by decide, by decide⟩).1,
   (claim_C2_amended_dedup fetchShared ["q1", "q2"] 7 "X" (by decide)
      ⟨"q1", by decide, by decide⟩).2.1 ⟨"X", "", "", "", "", "q1"⟩ (by decide) rfl⟩

/-! ## Claim C3 -/

set_option maxRecDepth 4096 in
/-- C3: the aggregation result is exactly the first (clamped) targetCount
items of the deduplicated accumulation; the accumulation preserves
first-seen order across queries in query-list order (it is a sublist of the
flattened query/item stream); and concretely, with targetCount=10 and 25
unique items available across two queries, exactly the first ten items are
returned in first-seen order. -/
theorem claim_C3_truncation :
    (∀ (fetch : ReqParams → FetchResult) (topic : String) (keywords : Option (List String))
        (numArticles : Int),
        aggregationResult fetch topic keywords numArticles =
          ((reportAccum fetch (reportQueries topic keywords)
              (reportDisplayCount (clampNumArticles numArticles)
                (reportQueries topic keywords))).1).take
            (clampNumArticles numArticles).toNat) ∧
    (∀ (fetch : ReqParams → FetchResult) (queries : List String) (display : Int),
        List.Sublist (reportAccum fetch queries display).1
          ((streamOf fetch display queries).map (fun p => mkArticle p.1 p.2))) ∧
    ((streamOf fetch25 (reportDisplayCount (clampNumArticles 10) (reportQueries "T" (some ["K"])))
        (reportQueries "T" (some ["K"]))).map cleanedTitle).Nodup ∧
    (streamOf fetch25 (reportDisplayCount (clampNumArticles 10) (reportQueries "T" (some ["K"])))
        (reportQueries "T" (some ["K"]))).length = 25 ∧
    aggregationResult fetch25 "T" (some ["K"]) 10 = firstTenArticles := by
  refine ⟨fun _ _ _ _ => rfl, ?_, by decide, by decide, by decide⟩
  intro fetch queries display
  rw [reportAccum_eq_foldStream]
  obtain ⟨ext, heq, hsub, _⟩ := foldStream_ext (streamOf fetch display queries) ([], [])
  rw [heq]
  simpa using hsub

/-! ## Claim C9 -/

/-- C9: every item of the aggregation result has a nonempty cleaned title;
items whose cleaned title is empty are silently discarded during
collection. -/
theorem claim_C9_no_empty_titles (fetch : ReqParams → FetchResult) (topic : String)
    (keywords : Option (List String)) (numArticles : Int) :
    ∀ a ∈ aggregationResult fetch topic keywords numArticles, a.title ≠ "" := by
  intro a ha
  have hmem : a ∈ (reportAccum fetch (reportQueries topic keywords)
      (reportDisplayCount (clampNumArticles numArticles) (reportQueries topic keywords))).1 :=
    (List.take_sublist _ _).subset ha
  rw [reportAccum_eq_foldStream] at hmem
  obtain ⟨ext, heq, _, hne⟩ := foldStream_ext (streamOf fetch
    (reportDisplayCount (clampNumArticles numArticles) (reportQueries topic keywords))
    (reportQueries topic keywords)) ([], [])
  rw [heq] at hmem
  exact hne a (by simpa using hmem)

/-- C9 witness: the upstream response of query `q` contains an item whose
cleaned title is empty (`"<b>"`), the aggregation result keeps only the item
titled `ok`, and its title is nonempty. -/
theorem claim_C9_witness :
    (∃ p ∈ streamOf fetchMixed
        (reportDisplayCount (clampNumArticles 15) (reportQueries "q" none))
        (reportQueries "q" none), cleanedTitle p = "") ∧
    aggregationResult fetchMixed "q" none 15 = [okArticle] ∧
    okArticle ∈ aggregationResult fetchMixed "q" none 15 ∧
    okArticle.title ≠ "" :=
  ⟨by decide, by decide, by decide,
   claim_C9_no_empty_titles fetchMixed "q" none 15 okArticle (by decide)⟩

end NewsServer
